import Mathlib

/-!
Verification of the coordinate-string parsing, grid-reference normalization
and API-gateway caching logic of the hk-coordinate-converter repository
(src/app.py and src/hk_grid_converter.py).

Strings are modelled as `List Char`; Python floats are modelled as exact
rationals (every arithmetic step in the source is a sum of small decimal
fractions, so ℚ reproduces the intended values; claims about approximate
values are stated with explicit error bounds).  The two regular expressions
of the source are embedded by a small backtracking matcher whose candidate
order mirrors Python's `re` engine (greedy quantifiers try longest first,
lazy ones shortest first, alternation left first, `search` scans start
positions left to right).
-/

namespace HKConv

/-- Python whitespace (`str.strip`, `str.split`, and the regex class `\s`):
space, tab, newline, carriage return, vertical tab, form feed.
(The source never feeds non-ASCII whitespace to these routines.) -/
def pySpace (c : Char) : Bool :=
  c = ' ' || c = '\t' || c = '\n' || c = '\r' || c = Char.ofNat 11 || c = Char.ofNat 12

/-- The apostrophe character `'` (minute symbol in coordinate strings). -/
def sqC : Char := Char.ofNat 39

/-- The double-quote character (second symbol in coordinate strings). -/
def dqC : Char := Char.ofNat 34

/-- The degree sign. -/
def degC : Char := Char.ofNat 176

/-- The Unicode prime symbol (minutes). -/
def primeC : Char := Char.ofNat 8242

/-- The Unicode double-prime symbol (seconds). -/
def dprimeC : Char := Char.ofNat 8243

/-- Python `str.strip()`: drop Python whitespace from both ends. -/
def pyStrip (cs : List Char) : List Char :=
  ((cs.dropWhile pySpace).reverse.dropWhile pySpace).reverse

/-- Python `str.upper()` restricted to ASCII, which is all the source relies on. -/
def pyUpper (cs : List Char) : List Char := cs.map Char.toUpper

/-- Python `re.split(r'[,;]', text)`: split at every comma or semicolon, keeping
empty segments. -/
def splitPunct : List Char → List (List Char)
  | [] => [[]]
  | c :: cs =>
    if c = ',' || c = ';' then [] :: splitPunct cs
    else
      match splitPunct cs with
      | [] => [[c]]
      | s :: rest => (c :: s) :: rest

/-- Python `str.split()`: split on runs of whitespace, discarding empty tokens.
The first argument is the reversed partial token accumulated so far. -/
def pySplitWSAux : List Char → List Char → List (List Char)
  | acc, [] => if acc.isEmpty then [] else [acc.reverse]
  | acc, c :: cs =>
    if pySpace c then
      if acc.isEmpty then pySplitWSAux [] cs
      else acc.reverse :: pySplitWSAux [] cs
    else pySplitWSAux (c :: acc) cs

/-- Python `str.split()` on whitespace. -/
def pySplitWS (cs : List Char) : List (List Char) := pySplitWSAux [] cs

/-- Value of a list of decimal digits. -/
def digitsVal (cs : List Char) : ℕ :=
  cs.foldl (fun a c => a * 10 + (c.toNat - 48)) 0

/-- Exponent suffix of Python `float(...)`: either nothing, or `e`/`E`
followed by an optionally signed nonempty digit string reaching the end of
the token.  Returns the exponent, or `none` when the suffix is malformed
(Python raises `ValueError`). -/
def pyFloatExp : List Char → Option ℤ
  | [] => some 0
  | c :: cs =>
    if c = 'e' || c = 'E' then
      match cs with
      | '+' :: ds => if ds ≠ [] && ds.all Char.isDigit then some (digitsVal ds) else none
      | '-' :: ds => if ds ≠ [] && ds.all Char.isDigit then some (-(digitsVal ds : ℤ)) else none
      | ds => if ds ≠ [] && ds.all Char.isDigit then some (digitsVal ds) else none
    else none

/-- Unsigned part of Python `float(...)`: `digits [. digits*]` or
`. digits+`, followed by an optional exponent.  (`inf`, `nan` and digit
underscores, which the source never produces, are not modelled.) -/
def pyFloatUnsigned (cs : List Char) : Option ℚ :=
  let intPart := cs.takeWhile Char.isDigit
  let r1 := cs.drop intPart.length
  match r1 with
  | '.' :: r2 =>
    let frac := r2.takeWhile Char.isDigit
    let r3 := r2.drop frac.length
    if intPart.isEmpty && frac.isEmpty then none
    else
      match pyFloatExp r3 with
      | none => none
      | some e =>
        some (((digitsVal intPart : ℚ) + (digitsVal frac : ℚ) / (10 : ℚ) ^ frac.length)
          * (10 : ℚ) ^ e)
  | r1' =>
    if intPart.isEmpty then none
    else
      match pyFloatExp r1' with
      | none => none
      | some e => some ((digitsVal intPart : ℚ) * (10 : ℚ) ^ e)

/-- Python `float(token)` on a whitespace-free token, as an exact rational;
`none` models `ValueError`. -/
def pyFloat : List Char → Option ℚ
  | '+' :: cs => pyFloatUnsigned cs
  | '-' :: cs => (pyFloatUnsigned cs).map Neg.neg
  | cs => pyFloatUnsigned cs

/-! ### A backtracking regex matcher

`M α` enumerates, in the exact order Python's backtracking `re` engine
explores them, the ways a pattern fragment can consume a prefix of the
input, each paired with the remaining input. -/

def M (α : Type) := List Char → List (α × List Char)

instance : Monad M where
  pure a := fun cs => [(a, cs)]
  bind m f := fun cs => (m cs).flatMap (fun p => f p.1 p.2)

/-- Left-biased alternation (Python tries the left branch first). -/
def malt (m1 m2 : M α) : M α := fun cs => m1 cs ++ m2 cs

/-- Map over the result of a fragment. -/
def mmap (f : α → β) (m : M α) : M β := fun cs => (m cs).map (fun p => (f p.1, p.2))

/-- A single character of the class `p`. -/
def mchar (p : Char → Bool) : M Char := fun cs =>
  match cs with
  | [] => []
  | c :: rest => if p c then [(c, rest)] else []

/-- Greedy `p*` on a character class: candidates from longest to shortest. -/
def mstar (p : Char → Bool) : M (List Char) := fun cs =>
  let run := cs.takeWhile p
  let rest := cs.drop run.length
  (List.range (run.length + 1)).map (fun i =>
    let k := run.length - i
    (run.take k, run.drop k ++ rest))

/-- Greedy `p+` on a character class: candidates from longest to shortest,
at least one character. -/
def mplus (p : Char → Bool) : M (List Char) := fun cs =>
  let run := cs.takeWhile p
  let rest := cs.drop run.length
  (List.range run.length).map (fun i =>
    let k := run.length - i
    (run.take k, run.drop k ++ rest))

/-- Exactly `n` characters of the class `p`. -/
def mrep (p : Char → Bool) (n : ℕ) : M (List Char) := fun cs =>
  let t := cs.take n
  if t.length = n && t.all p then [(t, cs.drop n)] else []

/-- Greedy `p{1,2}` (two characters preferred). -/
def m12 (p : Char → Bool) : M (List Char) := malt (mrep p 2) (mrep p 1)

/-- Greedy `p{1,3}` (three characters preferred). -/
def m13 (p : Char → Bool) : M (List Char) := malt (mrep p 3) (malt (mrep p 2) (mrep p 1))

/-- Greedy `(...)?`: presence preferred over absence. -/
def mopt (m : M α) : M (Option α) := malt (mmap some m) (pure none)

/-- Python `re.search`: try a full match of the fragment at each start position,
left to right, and return the captures of the first success. -/
def msearch (m : M α) : List Char → Option α
  | [] => ((m []).head?).map Prod.fst
  | c :: cs =>
    match ((m (c :: cs)).head?) with
    | some p => some p.1
    | none => msearch m cs

/-- Python `pattern.match` anchored at the start with a trailing `$`: the first
candidate that consumes the whole input. -/
def mfullmatch (m : M α) (cs : List Char) : Option α :=
  ((m cs).filter (fun p => p.2.isEmpty)).head?.map Prod.fst

/-! ### The two regular expressions of `parse_any_coordinate_format`
(src/hk_grid_converter.py lines 48-58 and 70) and the decimal-degree
pattern of `enhanced_coordinate_parser` (src/app.py line 487). -/

/-- Captures of `pattern_dms_dm` (groups 0-7 of the match). -/
structure DmsGroups where
  deg1 : List Char
  min1 : List Char
  sec1 : Option (List Char)
  hem1 : Char
  deg2 : List Char
  min2 : List Char
  sec2 : Option (List Char)
  hem2 : Char
deriving DecidableEq, Repr

/-- The fragment `\d{1,2}(?:\.\d+)?`. -/
def dmsNum : M (List Char) := do
  let a ← m12 Char.isDigit
  let b ← mopt (do
    let _ ← mchar (fun c => c = '.')
    let ds ← mplus Char.isDigit
    pure ('.' :: ds))
  pure (a ++ b.getD [])

/-- The optional seconds fragment `(?:(\d{1,2}(?:\.\d+)?)\s*[\"″]\s*)?`
(with the quote class passed in, so the same fragment serves both halves). -/
def dmsSec : M (Option (List Char)) := mopt (do
  let s ← dmsNum
  let _ ← mstar pySpace
  let _ ← mchar (fun c => c = dqC || c = dprimeC)
  let _ ← mstar pySpace
  pure s)

/-- The regex `pattern_dms_dm` of `parse_any_coordinate_format`:
`(\d{1,2})[\s°]*(\d{1,2}(?:\.\d+)?)\s*['′]?\s*(?:(\d{1,2}(?:\.\d+)?)\s*[\"″]\s*)?([NS])`
`[\s,;]*(\d{1,3})[\s°]*(\d{1,2}(?:\.\d+)?)\s*['′]?\s*(?:...)?([EW])`. -/
def patternDmsDm : M DmsGroups := do
  let d1 ← m12 Char.isDigit
  let _ ← mstar (fun c => pySpace c || c = degC)
  let mn1 ← dmsNum
  let _ ← mstar pySpace
  let _ ← mopt (mchar (fun c => c = sqC || c = primeC))
  let _ ← mstar pySpace
  let s1 ← dmsSec
  let h1 ← mchar (fun c => c = 'N' || c = 'S')
  let _ ← mstar (fun c => pySpace c || c = ',' || c = ';')
  let d2 ← m13 Char.isDigit
  let _ ← mstar (fun c => pySpace c || c = degC)
  let mn2 ← dmsNum
  let _ ← mstar pySpace
  let _ ← mopt (mchar (fun c => c = sqC || c = primeC))
  let _ ← mstar pySpace
  let s2 ← dmsSec
  let h2 ← mchar (fun c => c = 'E' || c = 'W')
  pure ⟨d1, mn1, s1, h1, d2, mn2, s2, h2⟩

/-- The fragment `-?\d+\.?\d*` of the converter's `pattern_dd`. -/
def ddNumLoose : M (List Char) := do
  let s ← mopt (mchar (fun c => c = '-'))
  let a ← mplus Char.isDigit
  let d ← mopt (mchar (fun c => c = '.'))
  let b ← mstar Char.isDigit
  pure ((s.map (fun c => [c])).getD [] ++ a ++ (d.map (fun c => [c])).getD [] ++ b)

/-- The regex `pattern_dd` of `parse_any_coordinate_format`:
`^(-?\d+\.?\d*)\s*[,;\s]\s*(-?\d+\.?\d*)$` (used with `.match`, so anchored
at the start; the `$` is enforced by `mfullmatch`). -/
def patternDdConv : M (List Char × List Char) := do
  let t1 ← ddNumLoose
  let _ ← mstar pySpace
  let _ ← mchar (fun c => c = ',' || c = ';' || pySpace c)
  let _ ← mstar pySpace
  let t2 ← ddNumLoose
  pure (t1, t2)

/-- The fragment `-?\d+\.\d+` of the app's `pattern_dd`. -/
def ddNumStrict : M (List Char) := do
  let s ← mopt (mchar (fun c => c = '-'))
  let a ← mplus Char.isDigit
  let _ ← mchar (fun c => c = '.')
  let b ← mplus Char.isDigit
  pure ((s.map (fun c => [c])).getD [] ++ a ++ '.' :: b)

/-- The regex `pattern_dd` of `enhanced_coordinate_parser` (src/app.py line 487):
`(-?\d+\.\d+)\s*[,;]\s*(-?\d+\.\d+)`, used with `.search`. -/
def patternDdApp : M (List Char × List Char) := do
  let t1 ← ddNumStrict
  let _ ← mstar pySpace
  let _ ← mchar (fun c => c = ',' || c = ';')
  let _ ← mstar pySpace
  let t2 ← ddNumStrict
  pure (t1, t2)

/-! ### The hemisphere split of `enhanced_coordinate_parser`
(src/app.py lines 405-413): `re.search(r'([NS].*?)\s*([EW].*)', text)`. -/

/-- Split the input just before its first `E` or `W` (the lazy `.*?`
together with the following `[EW]` lands on the first such letter). -/
def splitAtFirstEW : List Char → Option (List Char × List Char)
  | [] => none
  | c :: cs =>
    if c = 'E' || c = 'W' then some ([], c :: cs)
    else
      match splitAtFirstEW cs with
      | some (a, b) => some (c :: a, b)
      | none => none

/-- Drop the whitespace run at the end of a segment (absorbed by the `\s*`
between the two capture groups). -/
def dropTrailingWS (cs : List Char) : List Char :=
  (cs.reverse.dropWhile pySpace).reverse

/-- The search `([NS].*?)\s*([EW].*)`: the match starts at the
first `N`/`S` that is followed (anywhere later) by an `E`/`W`; the first
group runs from there up to the first later `E`/`W`, minus the whitespace
immediately before it, and the second group is the rest of the string. -/
def searchNSEW : List Char → Option (List Char × List Char)
  | [] => none
  | c :: cs =>
    if c = 'N' || c = 'S' then
      match splitAtFirstEW cs with
      | some (a, b) => some (dropTrailingWS (c :: a), b)
      | none => searchNSEW cs
    else searchNSEW cs

/-! ### `parse_any_coordinate_format` (src/hk_grid_converter.py lines 34-80) -/

/-- The helper `to_decimal` of `parse_any_coordinate_format` (lines 43-45):
`float(deg) + float(mnt)/60 + float(sec or 0)/3600`, negated when the
hemisphere letter is S or W.  A `none` result models the `ValueError` /
`TypeError` caught by the caller. -/
def conv_to_decimal (deg mnt : List Char) (sec : Option (List Char)) (hem : Char) :
    Option ℚ :=
  match pyFloat deg, pyFloat mnt, pyFloat ((sec.getD ['0'])) with
  | some d, some m, some s =>
    let dec := d + m / 60 + s / 3600
    some (if hem = 'S' || hem = 'W' then -dec else dec)
  | _, _, _ => none

/-- The method `parse_any_coordinate_format` (lines 34-80): Pattern 1 (DMS/DM with
hemisphere letters, searched anywhere in the text), then Pattern 2
(anchored decimal degrees with a range check); `none` models Python's
`None`. -/
def parse_any_coordinate_format (coord_str : List Char) : Option (ℚ × ℚ) :=
  let text := pyUpper (pyStrip coord_str)
  let p2 : Option (ℚ × ℚ) :=
    match mfullmatch patternDdConv text with
    | some (t1, t2) =>
      match pyFloat t1, pyFloat t2 with
      | some lat, some lon =>
        if -90 ≤ lat && lat ≤ 90 && -180 ≤ lon && lon ≤ 180 then some (lat, lon) else none
      | _, _ => none
    | none => none
  match msearch patternDmsDm text with
  | some g =>
    match conv_to_decimal g.deg1 g.min1 g.sec1 g.hem1,
          conv_to_decimal g.deg2 g.min2 g.sec2 g.hem2 with
    | some lat, some lon => some (lat, lon)
    | _, _ => p2
  | none => p2

/-! ### `enhanced_coordinate_parser` (src/app.py lines 379-524)

The Streamlit calls `st.warning` / `st.error` are pure UI output; the
embedding keeps the branch structure (so the guards appear exactly as in
the source) and models only the returned value. -/

/-- The Hong Kong operational bounds (src/app.py lines 11-14). -/
def HK_LAT_MIN : ℚ := 22.15
def HK_LAT_MAX : ℚ := 22.60
def HK_LON_MIN : ℚ := 113.80
def HK_LON_MAX : ℚ := 114.45

/-- The chained comparison `-90 <= lat <= 90 and -180 <= lon <= 180`. -/
def rangeOK (lat lon : ℚ) : Bool :=
  -90 ≤ lat && lat ≤ 90 && -180 ≤ lon && lon ≤ 180

/-- The chained comparison
`HK_LAT_MIN <= lat <= HK_LAT_MAX and HK_LON_MIN <= lon <= HK_LON_MAX`. -/
def hkBoundsOK (lat lon : ℚ) : Bool :=
  HK_LAT_MIN ≤ lat && lat ≤ HK_LAT_MAX && HK_LON_MIN ≤ lon && lon ≤ HK_LON_MAX

/-- The helper `to_decimal` of `enhanced_coordinate_parser` (src/app.py lines
391-401).  Arguments are the optional token strings (Python `None` is
`none`); a `none` result models the locally caught `ValueError` /
`TypeError` (e.g. `float(None)`). -/
def to_decimal (deg mnt sec : Option (List Char)) (hem : Option Char) : Option ℚ :=
  match deg with
  | none => none
  | some d =>
    match pyFloat d with
    | none => none
    | some dv =>
      match (match mnt with | none => some (0 : ℚ) | some m => pyFloat m) with
      | none => none
      | some mv =>
        match (match sec with | none => some (0 : ℚ) | some s => pyFloat s) with
        | none => none
        | some sv =>
          let dec := dv + mv / 60 + sv / 3600
          some (if hem = some 'S' || hem = some 'W' then -dec else dec)

/-- Lines 405-413 of src/app.py: split on `[,;]`; when that does not give
exactly two parts and the text contains `N` together with `E` or `W`,
re-split with `([NS].*?)\s*([EW].*)`. -/
def splitParts (text : List Char) : List (List Char) :=
  let parts := splitPunct text
  if parts.length ≠ 2 then
    if text.contains 'N' && (text.contains 'E' || text.contains 'W') then
      match searchNSEW text with
      | some (a, b) => [a, b]
      | none => parts
    else parts
  else parts

/-- Replacement of the symbols `°`, `'`, `"` by a space
(src/app.py lines 445-446). -/
def symToSpace (c : Char) : Char :=
  if c = degC || c = sqC || c = dqC then ' ' else c

/-- Processing of one half (src/app.py lines 416-468, latitude side):
strip, read the hemisphere letter, remove it, replace symbols by spaces,
split into up to three tokens, convert with `to_decimal`. -/
def latHalfValue (p : List Char) : Option ℚ :=
  let part0 := pyStrip p
  let hem : Option Char :=
    if part0.contains 'N' then some 'N'
    else if part0.contains 'S' then some 'S' else none
  let part1 := pyStrip (part0.filter (fun c => !(c = 'N' || c = 'S')))
  let comps := pySplitWS (part1.map symToSpace)
  to_decimal (comps.get? 0) (comps.get? 1) (comps.get? 2) hem

/-- Processing of the longitude half (src/app.py lines 416-469). -/
def lonHalfValue (p : List Char) : Option ℚ :=
  let part0 := pyStrip p
  let hem : Option Char :=
    if part0.contains 'E' then some 'E'
    else if part0.contains 'W' then some 'W' else none
  let part1 := pyStrip (part0.filter (fun c => !(c = 'E' || c = 'W')))
  let comps := pySplitWS (part1.map symToSpace)
  to_decimal (comps.get? 0) (comps.get? 1) (comps.get? 2) hem

/-- The shared tail of each successful-parse branch (src/app.py lines
471-482, 493-502 and 511-520): range validation, Hong Kong bounds check
(whose two branches return the same value and differ only in the
`st.warning` UI call), and `return None` after `st.error` when out of
range.  `some r` models `return r`. -/
def checkedReturn (lat lon : ℚ) : Option (Option (ℚ × ℚ)) :=
  if rangeOK lat lon then
    if hkBoundsOK lat lon then some (some (lat, lon))
    else some (some (lat, lon))   -- st.warning, then the same return
  else some none                  -- st.error; return None

/-- Lines 415-482 of src/app.py (the flexible two-part attempt).
`some r` means the source executes `return r` inside this block;
`none` means control falls through to the decimal-degree pattern. -/
def flexibleStage (text : List Char) : Option (Option (ℚ × ℚ)) :=
  match splitParts text with
  | [p0, p1] =>
    match latHalfValue p0, lonHalfValue p1 with
    | some la, some lo => checkedReturn la lo
    | _, _ => none
  | _ => none

/-- Lines 487-504 of src/app.py (the decimal-degree pattern attempt).
`some r` models `return r`, `none` falls through to the converter
fallback. -/
def ddStage (text : List Char) : Option (Option (ℚ × ℚ)) :=
  match msearch patternDdApp text with
  | some (t1, t2) =>
    match pyFloat t1, pyFloat t2 with
    | some lat, some lon => checkedReturn lat lon
    | _, _ => none                    -- ValueError caught; fall through
  | none => none

/-- Lines 507-524 of src/app.py (the `parse_any_coordinate_format`
fallback, applied to the raw `coord_str`). -/
def fallbackStage (coord_str : List Char) : Option (ℚ × ℚ) :=
  match parse_any_coordinate_format coord_str with
  | some (lat, lon) =>
    match checkedReturn lat lon with
    | some r => r
    | none => none
  | none => none

/-- The function `enhanced_coordinate_parser` (src/app.py lines 379-524), modelling the
returned value.  (The Lean name drops the final word of the Python name;
every stage is the faithful embedding of the corresponding block.) -/
def enhanced_coordinate_parse (coord_str : List Char) : Option (ℚ × ℚ) :=
  if coord_str.isEmpty then none
  else
    let text := pyUpper (pyStrip coord_str)
    match flexibleStage text with
    | some r => r
    | none =>
      match ddStage text with
      | some r => r
      | none => fallbackStage coord_str

/-! ### Grid-reference handling
(`parse_hk_grid`, src/app.py lines 647-668, and the validation prefix of
`hk_grid_to_lat_lon`, src/hk_grid_converter.py lines 96-107). -/

/-- Cleaning `grid_str.strip().upper().replace(" ", "")` (only the ASCII space is
removed by the `replace`). -/
def gridClean (cs : List Char) : List Char :=
  (pyUpper (pyStrip cs)).filter (fun c => c ≠ ' ')

/-- Matching `re.match(r'^(GE|HE|JK|KK)(\d+)$', s)`: the two-letter prefix and the
nonempty all-digit remainder. -/
def gridMatch (cs : List Char) : Option (List Char × List Char) :=
  match cs with
  | a :: b :: rest =>
    if ((a = 'G' && b = 'E') || (a = 'H' && b = 'E') ||
        (a = 'J' && b = 'K') || (a = 'K' && b = 'K'))
        && !rest.isEmpty && rest.all Char.isDigit
    then some ([a, b], rest)
    else none
  | _ => none

/-- The function `parse_hk_grid` (src/app.py lines 647-668): `none` for the empty
string, a failed regex match, or an odd digit count; otherwise the
re-assembled `square_id + numbers`. -/
def parse_hk_grid (grid_str : List Char) : Option (List Char) :=
  if grid_str.isEmpty then none
  else
    match gridMatch (gridClean grid_str) with
    | none => none
    | some (square_id, numbers) =>
      if numbers.length % 2 ≠ 0 then none
      else some (square_id ++ numbers)

/-- Error message of the failed regex match in `hk_grid_to_lat_lon`
(src/hk_grid_converter.py line 100). -/
def invalidFormatMsg : String :=
  "Invalid HK Grid format. Expected format like " ++ sqC.toString ++ "KK123456" ++
    sqC.toString ++ "."

/-- Error message of the odd-digit-count check (line 103). -/
def oddDigitsMsg : String := "Grid numbers must have an even number of digits."

/-- The validation prefix of `hk_grid_to_lat_lon` (src/hk_grid_converter.py
lines 96-105): clean, match the grid pattern, reject odd digit counts, and
split the digits in half into easting and northing. -/
def hk_grid_validate (grid_str : List Char) :
    Except String (List Char × List Char × List Char) :=
  match gridMatch (gridClean grid_str) with
  | none => Except.error invalidFormatMsg
  | some (square_id, numbers) =>
    if numbers.length % 2 ≠ 0 then Except.error oddDigitsMsg
    else
      let digits := numbers.length / 2
      Except.ok (square_id, numbers.take digits, numbers.drop digits)

/-- Lines 106-107 of src/hk_grid_converter.py: the UTM zone string
(`f"50Q-{square_id}"` for JK/KK, `f"49Q-{square_id}"` otherwise) and the
request parameter set sent to the remote service. -/
def hk_grid_request_params (grid_str : List Char) :
    Except String (List (String × String)) :=
  match hk_grid_validate grid_str with
  | Except.error e => Except.error e
  | Except.ok (square_id, easting, northing) =>
    let sid := square_id.asString
    let utm_zone := if sid = "JK" || sid = "KK" then "50Q-" ++ sid else "49Q-" ++ sid
    Except.ok [("inSys", "utmref"), ("outSys", "wgsgeog"), ("zone", utm_zone),
      ("e", easting.asString), ("n", northing.asString)]

/-! ### The gateway cache (`_call_api`, src/hk_grid_converter.py lines
18-32)

Request parameter sets (Python dicts with string keys) are modelled as
association lists of serialized key/value pairs; `json.dumps(params,
sort_keys=True)` is injective on them and depends only on the key-sorted
sequence of pairs, so the cache key is modelled as that sorted list.
The HTTP call is an oracle argument: it returns parsed JSON data, or
raises a `RequestException`, or delivers a non-JSON body. -/

/-- Ordering on serialized key/value pairs: by key, ties by value
(dict keys are distinct, so this coincides with `sort_keys=True`). -/
def keyLex (a b : String × String) : Prop :=
  a.1 < b.1 ∨ (a.1 = b.1 ∧ a.2 ≤ b.2)

instance : DecidableRel keyLex := fun a b => by
  unfold keyLex; infer_instance

instance : IsTotal (String × String) keyLex where
  total a b := by
    rcases lt_trichotomy a.1 b.1 with h | h | h
    · exact Or.inl (Or.inl h)
    · rcases le_total a.2 b.2 with h2 | h2
      · exact Or.inl (Or.inr ⟨h, h2⟩)
      · exact Or.inr (Or.inr ⟨h.symm, h2⟩)
    · exact Or.inr (Or.inl h)

instance : IsTrans (String × String) keyLex where
  trans a b c hab hbc := by
    rcases hab with h1 | ⟨h1, h1v⟩ <;> rcases hbc with h2 | ⟨h2, h2v⟩
    · exact Or.inl (lt_trans h1 h2)
    · exact Or.inl (h2 ▸ h1)
    · exact Or.inl (h1 ▸ h2)
    · exact Or.inr ⟨h1.trans h2, le_trans h1v h2v⟩

instance : IsAntisymm (String × String) keyLex where
  antisymm a b hab hba := by
    rcases hab with h1 | ⟨h1, h1v⟩ <;> rcases hba with h2 | ⟨h2, h2v⟩
    · exact absurd (lt_trans h1 h2) (lt_irrefl a.1)
    · exact absurd h1 (h2 ▸ lt_irrefl a.1)
    · exact absurd h2 (h1 ▸ lt_irrefl b.1)
    · exact Prod.ext h1 (le_antisymm h1v h2v)

/-- The cache key of `_call_api`:
`json.dumps(params, sort_keys=True)`, modelled by its key-sorted pair
sequence. -/
def cacheKey (params : List (String × String)) : List (String × String) :=
  params.insertionSort keyLex

/-- Parsed JSON response data (a flat string dict suffices for the fields
the source reads). -/
abbrev ApiData := List (String × String)

/-- Python `"ErrorCode" in data`. -/
def hasErrorCode (d : ApiData) : Bool :=
  (List.lookup "ErrorCode" d).isSome

/-- Outcome of `requests.get(...)` plus `response.json()`. -/
inductive NetOutcome where
  | ok (data : ApiData)
  | requestException (msg : String)
  | jsonDecodeError
deriving DecidableEq

/-- The cache: sorted-key → response data. -/
abbrev Cache := List (List (String × String) × ApiData)

/-- The method `_call_api` (src/hk_grid_converter.py lines 18-32): look the key up in
the cache; on a miss perform the call, store the data only when it carries
no `"ErrorCode"`, and turn network / JSON failures into error dicts. -/
def call_api (net : List (String × String) → NetOutcome) (cache : Cache)
    (params : List (String × String)) : ApiData × Cache :=
  let key := cacheKey params
  match List.lookup key cache with
  | some d => (d, cache)
  | none =>
    match net params with
    | NetOutcome.ok data =>
      if hasErrorCode data then (data, cache)
      else (data, (key, data) :: cache)
    | NetOutcome.requestException msg =>
      ([("ErrorCode", "Network Error"), ("ErrorMsg", msg)], cache)
    | NetOutcome.jsonDecodeError =>
      ([("ErrorCode", "Invalid Response"),
        ("ErrorMsg", "Could not parse JSON from API.")], cache)

/-! ### Concrete inputs used by the theorems -/

/-- The string `22°18'30"N 114°12'45"E`. -/
def dmsInput : List Char :=
  "22".data ++ [degC] ++ "18".data ++ [sqC] ++ "30".data ++ [dqC] ++ "N 114".data ++
    [degC] ++ "12".data ++ [sqC] ++ "45".data ++ [dqC] ++ "E".data

/-- A latitude half carrying both a leading minus sign and an `S`
hemisphere letter. -/
def minusSouthInput : List Char := "-22.3 S, 114.2 E".data

/-- A latitude half carrying both a leading minus sign and an `N`
hemisphere letter. -/
def minusNorthInput : List Char := "-22.3 N, 114.2 E".data

/-- A hemisphere-first southern/western input (no letter `N` anywhere). -/
def swFirstInput : List Char := "S22 18.5 W114 12.75".data

/-- The corresponding hemisphere-first northern/eastern input. -/
def neFirstInput : List Char := "N22 18.5 E114 12.75".data

/-- The string `99°59'N 120°30'E`: well-formed DMS whose latitude value
exceeds 90. -/
def oobDmsInput : List Char :=
  "99".data ++ [degC] ++ "59".data ++ [sqC] ++ "N 120".data ++ [degC] ++ "30".data ++
    [sqC] ++ "E".data

/-- A valid DMS pair surrounded by unrelated text. -/
def noisyDmsInput : List Char := "GPS READING ".data ++ dmsInput ++ " NOTED".data

/-! ### Helper lemmas -/

section

attribute [local semireducible] Rat.add Rat.mul Rat.inv Rat.sub Rat.ofScientific

/-- Unfolding of the Bool-valued range check into the four inequalities. -/
theorem rangeOK_eq_true (lat lon : ℚ) (h : rangeOK lat lon = true) :
    -90 ≤ lat ∧ lat ≤ 90 ∧ -180 ≤ lon ∧ lon ≤ 180 := by
  simp only [rangeOK, Bool.and_eq_true, decide_eq_true_eq] at h
  exact ⟨h.1.1.1, h.1.1.2, h.1.2, h.2⟩

/-- Whenever `checkedReturn` produces a returned coordinate pair, the pair
is the checked one and it passed the range check. -/
theorem checkedReturn_some (lat lon la lo : ℚ)
    (h : checkedReturn lat lon = some (some (la, lo))) :
    la = lat ∧ lo = lon ∧ rangeOK lat lon = true := by
  unfold checkedReturn at h
  split at h
  · split at h <;>
      (simp only [Option.some.injEq, Prod.mk.injEq] at h; exact ⟨h.1.symm, h.2.symm, by assumption⟩)
  · simp at h

/-- A coordinate pair returned by the flexible stage passed the range
check. -/
theorem flexibleStage_range (text : List Char) (la lo : ℚ)
    (h : flexibleStage text = some (some (la, lo))) : rangeOK la lo = true := by
  unfold flexibleStage at h
  split at h
  · split at h
    · rename_i lat lon _ _
      obtain ⟨h1, h2, h3⟩ := checkedReturn_some lat lon la lo h
      rw [h1, h2]; exact h3
    · simp at h
  · simp at h

/-- A coordinate pair returned by the decimal-degree stage passed the
range check. -/
theorem ddStage_range (text : List Char) (la lo : ℚ)
    (h : ddStage text = some (some (la, lo))) : rangeOK la lo = true := by
  unfold ddStage at h
  split at h
  · split at h
    · rename_i lat lon _ _
      obtain ⟨h1, h2, h3⟩ := checkedReturn_some lat lon la lo h
      rw [h1, h2]; exact h3
    · simp at h
  · simp at h

/-- A coordinate pair returned by the fallback stage passed the range
check. -/
theorem fallbackStage_range (cs : List Char) (la lo : ℚ)
    (h : fallbackStage cs = some (la, lo)) : rangeOK la lo = true := by
  unfold fallbackStage at h
  split at h
  · rename_i lat lon _
    split at h
    · rename_i r hr
      rw [h] at hr
      obtain ⟨h1, h2, h3⟩ := checkedReturn_some lat lon la lo hr
      rw [h1, h2]; exact h3
    · simp at h
  · simp at h

/-- The digit part delivered by a successful grid match is nonempty and
all digits. -/
theorem gridMatch_digits (cs sid ns : List Char)
    (h : gridMatch cs = some (sid, ns)) : ns ≠ [] ∧ ns.all Char.isDigit = true := by
  unfold gridMatch at h
  split at h
  · split at h
    · rename_i hcond
      simp only [Bool.and_eq_true, Bool.not_eq_true'] at hcond
      simp only [Option.some.injEq, Prod.mk.injEq] at h
      obtain ⟨-, rfl⟩ := h
      refine ⟨fun hnil => ?_, hcond.2⟩
      rw [hnil] at hcond
      simp at hcond
    · simp at h
  · simp at h

/-! ### Claim theorems -/

/-- C1: parsing the hemisphere-suffixed DMS string `22°18'30"N 114°12'45"E`
(hemisphere letters after the numeric parts, no comma separator) succeeds —
both through the app's `enhanced_coordinate_parser` and through the class's
`parse_any_coordinate_format` — and returns latitude `2677/120 ≈ 22.308333`
and longitude `9137/80 = 114.2125`. -/
theorem claim1_dms_example :
    enhanced_coordinate_parse dmsInput = some (2677/120, 9137/80) ∧
    parse_any_coordinate_format dmsInput = some (2677/120, 9137/80) ∧
    (22.308333 : ℚ) < 2677/120 ∧ (2677/120 : ℚ) < 22.308334 ∧
    (9137/80 : ℚ) = 114.2125 := by
  refine ⟨by decide, by decide, by decide, by decide, by decide⟩

/-- C2 (counterexample): on the input `-22.3 S, 114.2 E`, whose latitude
half carries both an `S` hemisphere letter and a leading minus sign, the
parser returns latitude `+22.3` — positive, although the claim says an `S`
hemisphere yields a negative value; and on `-22.3 N, 114.2 E` it returns
latitude `-22.3` — negative, although the claim says `N` yields a positive
value with the minus sign ignored. -/
theorem claim2_hemisphere_cex :
    enhanced_coordinate_parse minusSouthInput = some (223/10, 571/5) ∧
    (0 : ℚ) < 223/10 ∧
    enhanced_coordinate_parse minusNorthInput = some (-223/10, 571/5) ∧
    (-223/10 : ℚ) < 0 := by
  refine ⟨by decide, by decide, by decide, by decide⟩

/-- C2 (amended): for a degrees token with any parsed value (in particular
a negative, minus-signed one), the hemisphere letter does not override the
written sign: `to_decimal` negates the signed value for S/W and keeps it
for N/E, so `-22.3` with `S` becomes `+22.3` and `-22.3` with `N` stays
`-22.3`; no exception escapes (failures are the `none` value). -/
theorem claim2_sign_combines (t : List Char) (v : ℚ) (h : pyFloat t = some v) :
    to_decimal (some t) none none (some 'S') = some (-v) ∧
    to_decimal (some t) none none (some 'W') = some (-v) ∧
    to_decimal (some t) none none (some 'N') = some v ∧
    to_decimal (some t) none none (some 'E') = some v := by
  have e : v + (0:ℚ)/60 + 0/3600 = v := by norm_num
  refine ⟨?_, ?_, ?_, ?_⟩ <;> simp [to_decimal, h, e]

/-- Witness for C2 (amended), at the token `-22.3`. -/
theorem claim2_sign_combines_witness :
    pyFloat "-22.3".data = some (-223/10 : ℚ) ∧
    to_decimal (some "-22.3".data) none none (some 'S') = some (223/10 : ℚ) := by
  have h : pyFloat "-22.3".data = some (-223/10 : ℚ) := by decide
  refine ⟨h, ?_⟩
  have h2 := (claim2_sign_combines "-22.3".data (-223/10) h).1
  simpa using h2

/-- C3 (counterexample): the hemisphere-first southern/western input
`S22 18.5 W114 12.75` (which contains an `S` and a `W` marker) is not
split and fails to parse, while the corresponding `N22 18.5 E114 12.75`
parses to `(2677/120, 9137/80)` — so the two are not parsed the same
way, contrary to the claim. -/
theorem claim3_split_cex :
    enhanced_coordinate_parse swFirstInput = none ∧
    enhanced_coordinate_parse neFirstInput = some (2677/120, 9137/80) := by
  refine ⟨by decide, by decide⟩

/-- C3 (amended): the hemisphere re-split runs only when the text contains
the letter `N` (together with `E` or `W`); for every text without an `N`,
the parts are exactly the comma/semicolon split, so hemisphere-first
southern/western inputs are never re-split — while the `N...E...` form is
split and parsed. -/
theorem claim3_split_needs_N :
    (∀ text : List Char, text.contains 'N' = false →
      splitParts text = splitPunct text) ∧
    enhanced_coordinate_parse neFirstInput = some (2677/120, 9137/80) := by
  refine ⟨?_, by decide⟩
  intro text h
  unfold splitParts
  split
  · rename_i hc
    rw [h] at hc
    simp at hc
  · simp

/-- Witness for C3 (amended), at the `S...W...` input. -/
theorem claim3_split_needs_N_witness :
    splitParts swFirstInput = splitPunct swFirstInput :=
  claim3_split_needs_N.1 swFirstInput (by decide)

/-- C10: the class-level pattern is applied with `re.search`, so a valid
DMS pair embedded in arbitrary unrelated text before and after it is still
found: `GPS READING 22°18'30"N 114°12'45"E NOTED` parses to the embedded
pair. -/
theorem claim10_embedded_pair :
    noisyDmsInput = "GPS READING ".data ++ dmsInput ++ " NOTED".data ∧
    parse_any_coordinate_format noisyDmsInput = some (2677/120, 9137/80) ∧
    parse_any_coordinate_format dmsInput = some (2677/120, 9137/80) := by
  refine ⟨rfl, by decide, by decide⟩

/-- C4 (counterexample): an invalid prefix (`XX123456`) and a missing
digit part (`KK`) produce the identical error value, so the two causes are
not distinguishable in the result — there are not three distinct error
kinds, only two (the shared format error, and the odd-digit-count
error). -/
theorem claim4_error_kinds_cex :
    hk_grid_validate "XX123456".data = Except.error invalidFormatMsg ∧
    hk_grid_validate "KK".data = Except.error invalidFormatMsg ∧
    hk_grid_validate "KK1234567".data = Except.error oddDigitsMsg ∧
    invalidFormatMsg ≠ oddDigitsMsg := by
  refine ⟨by rfl, by rfl, by rfl, by decide⟩

/-- C4 (amended): grid-reference validation fails with exactly two
distinct error kinds: a single format error covering both a bad prefix and
a missing digit part, and a separate odd-digit-count error. -/
theorem claim4_two_error_kinds (s : List Char) (e : String)
    (h : hk_grid_validate s = Except.error e) :
    e = invalidFormatMsg ∨ e = oddDigitsMsg := by
  unfold hk_grid_validate at h
  split at h
  · simp only [Except.error.injEq] at h
    exact Or.inl h.symm
  · split at h
    · simp only [Except.error.injEq] at h
      exact Or.inr h.symm
    · simp at h

/-- Witness for C4 (amended), at the inputs `XX123456` and `KK1234567`. -/
theorem claim4_two_error_kinds_witness :
    (invalidFormatMsg = invalidFormatMsg ∨ invalidFormatMsg = oddDigitsMsg) ∧
    (oddDigitsMsg = invalidFormatMsg ∨ oddDigitsMsg = oddDigitsMsg) :=
  ⟨claim4_two_error_kinds "XX123456".data invalidFormatMsg (by rfl),
   claim4_two_error_kinds "KK1234567".data oddDigitsMsg (by rfl)⟩

/-- C5: the three accepted spellings `KK369077`, `KK 369 077` and
`KK369 077` normalize identically to squareId `KK`, easting `369`,
northing `077`; and for every accepted grid reference the easting is the
first half of the digit string, the northing the second half, their
lengths are equal, and the digit string is nonempty of even length. -/
theorem claim5_normalize_halves :
    hk_grid_validate "KK369077".data = Except.ok ("KK".data, "369".data, "077".data) ∧
    hk_grid_validate "KK 369 077".data = Except.ok ("KK".data, "369".data, "077".data) ∧
    hk_grid_validate "KK369 077".data = Except.ok ("KK".data, "369".data, "077".data) ∧
    (∀ s sid e n, hk_grid_validate s = Except.ok (sid, e, n) →
      e.length = n.length ∧ e ++ n ≠ [] ∧ 2 * e.length = (e ++ n).length) := by
  refine ⟨by rfl, by rfl, by rfl, ?_⟩
  intro s sid e n h
  unfold hk_grid_validate at h
  split at h
  · simp at h
  · rename_i sid' ns hm
    split at h
    · simp at h
    · rename_i hodd
      simp only [Decidable.not_not] at hodd
      simp only [Except.ok.injEq, Prod.mk.injEq] at h
      obtain ⟨-, rfl, rfl⟩ := h
      have hnil := (gridMatch_digits _ _ _ hm).1
      have hlen : ns.length ≠ 0 := fun h0 => hnil (List.eq_nil_of_length_eq_zero h0)
      constructor
      · simp only [List.length_take, List.length_drop]
        omega
      · constructor
        · rw [List.take_append_drop]
          exact hnil
        · rw [List.take_append_drop]
          simp only [List.length_take]
          omega

/-- Witness for C5, at the input `KK369077`. -/
theorem claim5_normalize_halves_witness :
    "369".data.length = "077".data.length ∧
    "369".data ++ "077".data ≠ [] ∧
    2 * "369".data.length = ("369".data ++ "077".data).length :=
  claim5_normalize_halves.2.2.2 "KK369077".data "KK".data "369".data "077".data
    (by rfl)

/-- C6 (counterexample): for the grid reference `KK369077` (prefix `KK`)
the zone parameter sent to the remote service is `50Q-KK`, not `50Q` as
the claim states. -/
theorem claim6_zone_cex :
    hk_grid_request_params "KK369077".data =
      Except.ok [("inSys", "utmref"), ("outSys", "wgsgeog"), ("zone", "50Q-KK"),
        ("e", "369"), ("n", "077")] ∧
    ("50Q-KK" : String) ≠ "50Q" := by
  refine ⟨by rfl, by decide⟩

/-- C6 (amended): in the reverse conversion the zone parameter is exactly
`"50Q-" + prefix` for the prefixes JK and KK, and exactly `"49Q-" + prefix`
for GE and HE. -/
theorem claim6_zone_qualified (s sid e n : List Char)
    (h : hk_grid_validate s = Except.ok (sid, e, n)) :
    ∃ ps, hk_grid_request_params s = Except.ok ps ∧
      ((sid = "JK".data ∨ sid = "KK".data) →
        List.lookup "zone" ps = some ("50Q-" ++ sid.asString)) ∧
      ((sid = "GE".data ∨ sid = "HE".data) →
        List.lookup "zone" ps = some ("49Q-" ++ sid.asString)) := by
  refine ⟨_, by unfold hk_grid_request_params; rw [h], ?_, ?_⟩
  · rintro (rfl | rfl) <;> rfl
  · rintro (rfl | rfl) <;> rfl

/-- Witness for C6 (amended), at the input `KK369077`. -/
theorem claim6_zone_qualified_witness :
    ∃ ps, hk_grid_request_params "KK369077".data = Except.ok ps ∧
      List.lookup "zone" ps = some ("50Q-" ++ "KK".data.asString) := by
  obtain ⟨ps, h1, h2, -⟩ :=
    claim6_zone_qualified "KK369077".data "KK".data "369".data "077".data (by rfl)
  exact ⟨ps, h1, h2 (Or.inr rfl)⟩

/-- C7 (counterexample): the DMS pattern of `parse_any_coordinate_format`
performs no range check, so the well-formed input `99°59'N 120°30'E`
parses to latitude `5999/60 ≈ 99.98`, which exceeds 90 — the parser does
return a coordinate pair outside the valid ranges instead of failing. -/
theorem claim7_range_cex :
    parse_any_coordinate_format oobDmsInput = some (5999/60, 241/2) ∧
    (90 : ℚ) < 5999/60 := by
  refine ⟨by decide, by decide⟩

/-- C7 (amended): the app-level `enhanced_coordinate_parser` never returns
an out-of-range pair — every returned latitude lies in `[-90, 90]` and
every returned longitude in `[-180, 180]` (out-of-range values yield the
common failure value `None`, with `OutOfRange` existing only as a displayed
message); the class-level DMS path lacks this guarantee. -/
theorem claim7_enhanced_in_range (cs : List Char) (lat lon : ℚ)
    (h : enhanced_coordinate_parse cs = some (lat, lon)) :
    -90 ≤ lat ∧ lat ≤ 90 ∧ -180 ≤ lon ∧ lon ≤ 180 := by
  unfold enhanced_coordinate_parse at h
  split at h
  · simp at h
  · dsimp only at h
    split at h
    · rename_i r hflex
      rw [h] at hflex
      exact rangeOK_eq_true lat lon (flexibleStage_range _ lat lon hflex)
    · split at h
      · rename_i r hdd
        rw [h] at hdd
        exact rangeOK_eq_true lat lon (ddStage_range _ lat lon hdd)
      · exact rangeOK_eq_true lat lon (fallbackStage_range _ lat lon h)

/-- Witness for C7 (amended), at the decimal input `22.3193, 114.1694`. -/
theorem claim7_enhanced_in_range_witness :
    -90 ≤ (223193/10000 : ℚ) ∧ (223193/10000 : ℚ) ≤ 90 ∧
    -180 ≤ (570847/5000 : ℚ) ∧ (570847/5000 : ℚ) ≤ 180 :=
  claim7_enhanced_in_range "22.3193, 114.1694".data (223193/10000) (570847/5000)
    (by decide)

/-- C8: for every input string — empty, non-numeric or structurally
malformed — both coordinate parsers terminate with either a coordinate
pair or the failure value `None`, and no other outcome exists.  (In the
embedding every fallible primitive — `float`, regex matching — returns an
`Option`, mirroring the source's catch-all `try/except` blocks, so the
total functions below are the faithful model of "never raises".) -/
theorem claim8_always_returns (cs : List Char) :
    (enhanced_coordinate_parse cs = none ∨
      ∃ lat lon, enhanced_coordinate_parse cs = some (lat, lon)) ∧
    (parse_any_coordinate_format cs = none ∨
      ∃ lat lon, parse_any_coordinate_format cs = some (lat, lon)) := by
  constructor
  · match h : enhanced_coordinate_parse cs with
    | none => exact Or.inl rfl
    | some (lat, lon) => exact Or.inr ⟨lat, lon, rfl⟩
  · match h : parse_any_coordinate_format cs with
    | none => exact Or.inl rfl
    | some (lat, lon) => exact Or.inr ⟨lat, lon, rfl⟩

/-- Sorting is a function of the multiset of pairs: permuted parameter
sets share their sorted form. -/
theorem cacheKey_perm (ps qs : List (String × String)) (h : ps.Perm qs) :
    cacheKey ps = cacheKey qs :=
  List.eq_of_perm_of_sorted
    ((List.perm_insertionSort keyLex ps).trans
      (h.trans (List.perm_insertionSort keyLex qs).symm))
    (List.sorted_insertionSort keyLex ps)
    (List.sorted_insertionSort keyLex qs)

/-- C9: the gateway cache is keyed order-independently (permuted parameter
sets map to the same cache key), a successful response on a cache miss is
stored under that key, a response carrying an error code never changes the
cache, and the only-successful-responses invariant is preserved by every
call. -/
theorem claim9_cache_contract :
    (∀ ps qs : List (String × String), ps.Perm qs → cacheKey ps = cacheKey qs) ∧
    (∀ net cache ps d, List.lookup (cacheKey ps) cache = none →
      net ps = NetOutcome.ok d → hasErrorCode d = false →
      (call_api net cache ps).2 = (cacheKey ps, d) :: cache) ∧
    (∀ net cache ps d, net ps = NetOutcome.ok d → hasErrorCode d = true →
      (call_api net cache ps).2 = cache) ∧
    (∀ net cache ps, (∀ kv ∈ cache, hasErrorCode kv.2 = false) →
      ∀ kv ∈ (call_api net cache ps).2, hasErrorCode kv.2 = false) := by
  refine ⟨cacheKey_perm, ?_, ?_, ?_⟩
  · intro net cache ps d h1 h2 h3
    simp [call_api, h1, h2, h3]
  · intro net cache ps d h2 h3
    cases hl : List.lookup (cacheKey ps) cache with
    | some d0 => simp [call_api, hl]
    | none => simp [call_api, hl, h2, h3]
  · intro net cache ps hinv kv hkv
    cases hl : List.lookup (cacheKey ps) cache with
    | some d0 =>
      rw [show (call_api net cache ps).2 = cache by simp [call_api, hl]] at hkv
      exact hinv kv hkv
    | none =>
      cases hn : net ps with
      | ok data =>
        by_cases he : hasErrorCode data = true
        · rw [show (call_api net cache ps).2 = cache by simp [call_api, hl, hn, he]] at hkv
          exact hinv kv hkv
        · rw [show (call_api net cache ps).2 = (cacheKey ps, data) :: cache by
              simp [call_api, hl, hn, he]] at hkv
          rcases List.mem_cons.mp hkv with rfl | hmem
          · simpa using he
          · exact hinv kv hmem
      | requestException msg =>
        rw [show (call_api net cache ps).2 = cache by simp [call_api, hl, hn]] at hkv
        exact hinv kv hkv
      | jsonDecodeError =>
        rw [show (call_api net cache ps).2 = cache by simp [call_api, hl, hn]] at hkv
        exact hinv kv hkv

/-- Witness for C9, with a two-entry parameter set, an empty cache, and
concrete successful / error-carrying responses. -/
theorem claim9_cache_contract_witness :
    cacheKey [("long", "114"), ("lat", "22")] = cacheKey [("lat", "22"), ("long", "114")] ∧
    (call_api (fun _ => NetOutcome.ok [("wgsLat", "22.3")]) [] [("lat", "22")]).2
      = (cacheKey [("lat", "22")], [("wgsLat", "22.3")]) :: [] ∧
    (call_api (fun _ => NetOutcome.ok [("ErrorCode", "1")]) [] [("lat", "22")]).2 = [] ∧
    (∀ kv ∈ (call_api (fun _ => NetOutcome.ok [("wgsLat", "22.3")]) [] [("lat", "22")]).2,
      hasErrorCode kv.2 = false) :=
  ⟨claim9_cache_contract.1 _ _ (List.Perm.swap ("lat", "22") ("long", "114") []),
   claim9_cache_contract.2.1 (fun _ => NetOutcome.ok [("wgsLat", "22.3")]) []
     [("lat", "22")] [("wgsLat", "22.3")] rfl rfl (by decide),
   claim9_cache_contract.2.2.1 (fun _ => NetOutcome.ok [("ErrorCode", "1")]) []
     [("lat", "22")] [("ErrorCode", "1")] rfl (by decide),
   claim9_cache_contract.2.2.2 (fun _ => NetOutcome.ok [("wgsLat", "22.3")]) []
     [("lat", "22")] (by simp)⟩

end

end HKConv
